import Mathlib

/-
Verification of the quota-enforcement and usage-accounting core of
SynapseChat (FastAPI + SQLAlchemy application).

The embedding models the database tables of app/models.py as lists of
rows, and translates the relevant Python functions:

  - app/routers/chat.py   check_and_increment_limit
  - app/utils/usage.py    query_usage, query_usage_all, get_global_limit
  - app/routers/admin.py  clear_database, create_or_update_user,
                          delete_user, api_update_config (bulk limit part)

Dates are abstracted to natural numbers (only equality and order on dates
are used by the code).  SQL integer columns are modelled as Int.  The
environment variable DAILY_LIMIT is modelled as an Option Int: none for
an absent variable, some v for a variable whose text parses to v.
-/

namespace SynapseChat

/-- Row of the users table (app/models.py, class User).  daily_limit is a
nullable integer column, hence Option Int. -/
structure User where
  username : String
  password_hash : String
  is_admin : Bool
  daily_limit : Option Int
deriving DecidableEq

/-- Row of the rate_limits table (app/models.py, class RateLimit):
primary key (username, date), integer count. -/
structure RateLimit where
  username : String
  date : Nat
  count : Int
deriving DecidableEq

/-- Row of the sessions table (app/models.py, class Session). -/
structure SessionRow where
  session_id : String
  username : String
  title : Option String
deriving DecidableEq

/-- Row of the messages table (app/models.py, class Message). -/
structure MessageRow where
  id : Nat
  session_id : String
  username : String
  role : String
  model : String
  content : String
deriving DecidableEq

/-- The persistent store: the four tables of app/models.py. -/
structure DB where
  users : List User
  rate_limits : List RateLimit
  sessions : List SessionRow
  messages : List MessageRow
deriving DecidableEq

/-- Outcome of check_and_increment_limit: either it returns normally
(admit) or raises one of three HTTPExceptions. -/
inductive AdmitResult where
  | admitted
  | userNotFound
  | perUserLimitExceeded
  | globalLimitExceeded
deriving DecidableEq

/-- The HTTP status code and detail string of the HTTPException raised by
check_and_increment_limit for each denial outcome (chat.py lines 26, 44-47,
53-56); none when the function returns normally. -/
def http_detail : AdmitResult → Option (Nat × String)
  | .admitted => none
  | .userNotFound => some (404, "User not found")
  | .perUserLimitExceeded => some (429, "Daily request limit reached")
  | .globalLimitExceeded => some (429, "Global daily request limit reached")

/-- The date filter of usage.py: rows with date >= since, all rows when
since is None. -/
def matches_since (since : Option Nat) (d : Nat) : Bool :=
  match since with
  | none => true
  | some s => decide (s ≤ d)

/-- app/utils/usage.py, query_usage: SUM of count over the rows of one
user with date >= since; SQL SUM of no rows is NULL and the Python wraps
it as int(result or 0), so the empty case yields 0. -/
def query_usage (db : DB) (username : String) (since : Option Nat) : Int :=
  (db.rate_limits.filter
      (fun r => r.username == username && matches_since since r.date)).foldl
    (fun acc r => acc + r.count) 0

/-- app/utils/usage.py, query_usage_all: SUM of count over all rows with
date >= since, 0 when there are none. -/
def query_usage_all (db : DB) (since : Option Nat) : Int :=
  (db.rate_limits.filter (fun r => matches_since since r.date)).foldl
    (fun acc r => acc + r.count) 0

/-- app/utils/usage.py, get_global_limit: int(os.getenv("DAILY_LIMIT",
"1000")) after load_dotenv.  An absent variable falls back to the literal
"1000"; a present variable yields its parsed value. -/
def get_global_limit (daily_limit_env : Option Int) : Int :=
  match daily_limit_env with
  | some v => v
  | none => 1000

/-- The ORM lookup for today's RateLimit row of a user (chat.py lines
31-35). -/
def find_rl (db : DB) (today : Nat) (username : String) : Option RateLimit :=
  db.rate_limits.find? (fun r => r.username == username && r.date == today)

/-- Insertion of a fresh RateLimit row with count 0 (chat.py lines 36-40). -/
def add_rl (db : DB) (today : Nat) (username : String) : DB :=
  { db with rate_limits :=
      db.rate_limits ++ [{ username := username, date := today, count := 0 }] }

/-- The increment of the current row, rl.count += 1 followed by commit
(chat.py lines 58-59); with the (username, date) primary key at most one
row matches. -/
def increment_rl (db : DB) (today : Nat) (username : String) : DB :=
  { db with rate_limits :=
      db.rate_limits.map (fun r =>
        if r.username == username && r.date == today then
          { r with count := r.count + 1 }
        else r) }

/-- chat.py line 42: user.daily_limit if user.daily_limit is not None
else 1000. -/
def effective_limit (user : User) : Int :=
  match user.daily_limit with
  | some l => l
  | none => 1000

/-- app/routers/chat.py, check_and_increment_limit.  Returns the outcome
together with the store as left behind by the call (the function commits
a fresh count-0 row before the limit checks, so a denied call can still
have created a row). -/
def check_and_increment_limit (env : Option Int) (today : Nat)
    (username : String) (db : DB) : AdmitResult × DB :=
  match db.users.find? (fun u => u.username == username) with
  | none => (.userNotFound, db)
  | some user =>
    if user.is_admin then (.admitted, db)
    else
      let p : Int × DB :=
        match find_rl db today username with
        | some r => (r.count, db)
        | none => (0, add_rl db today username)
      let rl_count := p.1
      let db1 := p.2
      let user_limit := effective_limit user
      if user_limit ≤ rl_count then (.perUserLimitExceeded, db1)
      else
        let global_limit := get_global_limit env
        if global_limit ≠ 0 ∧ global_limit ≤ query_usage_all db1 (some today) then
          (.globalLimitExceeded, db1)
        else
          (.admitted, increment_rl db1 today username)

/-- app/routers/admin.py, clear_database: deletes every Message, Session,
RateLimit and User row (the model-registry cleanup is an external
side effect outside the store). -/
def clear_database (db : DB) : DB :=
  { db with messages := [], sessions := [], rate_limits := [], users := [] }

/-- app/routers/admin.py, create_or_update_user: update password and
daily_limit of an existing user, otherwise insert a new non-admin user. -/
def create_or_update_user (username_new password_new : String)
    (daily_limit : Int) (db : DB) : DB :=
  match db.users.find? (fun u => u.username == username_new) with
  | some _ =>
    { db with users := db.users.map (fun u =>
        if u.username == username_new then
          { u with password_hash := password_new,
                   daily_limit := some daily_limit }
        else u) }
  | none =>
    { db with users := db.users ++
        [{ username := username_new, password_hash := password_new,
           is_admin := false, daily_limit := some daily_limit }] }

/-- app/routers/admin.py, delete_user: 404 when absent, 403 for an admin,
otherwise delete the user row (no cascade onto rate_limits is configured
in the ORM models). -/
def delete_user (username_del : String) (db : DB) : DB :=
  match db.users.find? (fun u => u.username == username_del) with
  | none => db
  | some user =>
    if user.is_admin then db
    else { db with users := db.users.filter (fun u => !(u.username == username_del)) }

/-- app/routers/admin.py, api_update_config, database part: set
daily_limit of every non-admin user to the new limit. -/
def api_update_config (limit : Int) (db : DB) : DB :=
  { db with users := db.users.map (fun u =>
      if u.is_admin then u else { u with daily_limit := some limit }) }

/-- The current count read off the store for a (date, user) key: the
count of the unique rate_limits row, 0 when there is no row. -/
def count_at (db : DB) (d : Nat) (username : String) : Int :=
  match db.rate_limits.find? (fun r => r.username == username && r.date == d) with
  | some r => r.count
  | none => 0

/-- The core operations that touch the store, used to state the ledger
monotonicity invariant: an admission check (chat.py), the user
create-or-update, user delete and bulk-limit config update of admin.py,
the read-only usage report of admin.py (api_usage performs no writes),
and the full wipe. -/
inductive AdminOp where
  | admitReq (env : Option Int) (today : Nat) (username : String)
  | createOrUpdateUser (username password : String) (daily_limit : Int)
  | deleteUser (username : String)
  | updateConfig (limit : Int)
  | usageReport
  | clearDb
deriving DecidableEq

/-- Effect of each core operation on the store. -/
def apply_op : AdminOp → DB → DB
  | .admitReq env today uname, db => (check_and_increment_limit env today uname db).2
  | .createOrUpdateUser u p l, db => create_or_update_user u p l db
  | .deleteUser u, db => delete_user u db
  | .updateConfig l, db => api_update_config l db
  | .usageReport, db => db
  | .clearDb, db => clear_database db

/-- Concrete store for the C1 scenario: one non-admin user u with
daily_limit = 2, no ledger rows. -/
def c1_db0 : DB :=
  { users := [{ username := "u", password_hash := "pw", is_admin := false,
                daily_limit := some 2 }],
    rate_limits := [], sessions := [], messages := [] }

/-- First admission call of the C1 scenario (global limit configured 0,
meaning no global cap). -/
def c1_s1 : AdmitResult × DB := check_and_increment_limit (some 0) 0 "u" c1_db0

/-- Second admission call of the C1 scenario. -/
def c1_s2 : AdmitResult × DB := check_and_increment_limit (some 0) 0 "u" c1_s1.2

/-- Third admission call of the C1 scenario. -/
def c1_s3 : AdmitResult × DB := check_and_increment_limit (some 0) 0 "u" c1_s2.2

/-- Store refuting the universal form of C2: user u is already at their
per-user limit of 0 while the day total of 1 (user b) also meets the
configured global limit of 1. -/
def c2x_db : DB :=
  { users := [{ username := "u", password_hash := "pu", is_admin := false,
                daily_limit := some 0 },
              { username := "b", password_hash := "pb", is_admin := false,
                daily_limit := some 100 }],
    rate_limits := [{ username := "b", date := 0, count := 1 }],
    sessions := [], messages := [] }

/-- Store for the C2 scenario: users a and b, both far under their
per-user limits, empty ledger; the global limit is configured to 1. -/
def c2s_db : DB :=
  { users := [{ username := "a", password_hash := "pa", is_admin := false,
                daily_limit := some 100 },
              { username := "b", password_hash := "pb", is_admin := false,
                daily_limit := some 100 }],
    rate_limits := [], sessions := [], messages := [] }

/-- Witness store for the amended C2: user u under their per-user limit
while the day total already meets the global limit of 1. -/
def c2w_db : DB :=
  { users := [{ username := "u", password_hash := "pw", is_admin := false,
                daily_limit := some 5 }],
    rate_limits := [{ username := "u", date := 0, count := 1 }],
    sessions := [], messages := [] }

/-- Witness store for C3: a single administrator account. -/
def c3_db : DB :=
  { users := [{ username := "root", password_hash := "pw", is_admin := true,
                daily_limit := some 0 }],
    rate_limits := [{ username := "root", date := 0, count := 7 }],
    sessions := [], messages := [] }

/-- Witness store for C4: user u at their per-user limit while the global
limit of 1 is also exceeded by the day total. -/
def c4_db : DB :=
  { users := [{ username := "u", password_hash := "pu", is_admin := false,
                daily_limit := some 2 },
              { username := "b", password_hash := "pb", is_admin := false,
                daily_limit := some 100 }],
    rate_limits := [{ username := "u", date := 0, count := 2 },
                    { username := "b", date := 0, count := 5 }],
    sessions := [], messages := [] }

/-- Witness store for C5: user u with unset (NULL) daily_limit and a
ledger row holding exactly the default 1000. -/
def c5_db : DB :=
  { users := [{ username := "u", password_hash := "pw", is_admin := false,
                daily_limit := none }],
    rate_limits := [{ username := "u", date := 0, count := 1000 }],
    sessions := [], messages := [] }

/-- Store refuting C6 for an absent DAILY_LIMIT variable: user u is far
under their per-user limit of 2000 but the day total is 1000, the value
get_global_limit falls back to when the variable is absent. -/
def c6x_db : DB :=
  { users := [{ username := "u", password_hash := "pw", is_admin := false,
                daily_limit := some 2000 }],
    rate_limits := [{ username := "u", date := 0, count := 1000 }],
    sessions := [], messages := [] }

/-- Witness store for C7: only user a has ledger rows. -/
def c7_db : DB :=
  { users := [{ username := "a", password_hash := "pw", is_admin := false,
                daily_limit := some 10 }],
    rate_limits := [{ username := "a", date := 0, count := 3 }],
    sessions := [], messages := [] }

/-- Witness store for C8: user u with one ledger row of count 1. -/
def c8_db : DB :=
  { users := [{ username := "u", password_hash := "pw", is_admin := false,
                daily_limit := some 10 }],
    rate_limits := [{ username := "u", date := 0, count := 1 }],
    sessions := [], messages := [] }

/-- The ledger row of the C8 witness store. -/
def c8_row : RateLimit := { username := "u", date := 0, count := 1 }

end SynapseChat

namespace SynapseChat

/-- C1: for non-admin user u with daily_limit 2 and no global cap, three
successive admission checks starting from an empty ledger admit with count
1, admit with count 2, then deny with the per-user outcome (HTTP 429,
detail Daily request limit reached) leaving the count at 2. -/
theorem C1_three_calls :
    c1_s1.1 = .admitted ∧ count_at c1_s1.2 0 "u" = 1 ∧
    c1_s2.1 = .admitted ∧ count_at c1_s2.2 0 "u" = 2 ∧
    c1_s3.1 = .perUserLimitExceeded ∧
    http_detail c1_s3.1 = some (429, "Daily request limit reached") ∧
    count_at c1_s3.2 0 "u" = 2 := by decide

/-- The stored count read by check_and_increment_limit is count_at. -/
lemma count_at_eq_find_rl (db : DB) (t : Nat) (u : String) :
    count_at db t u = match find_rl db t u with | some r => r.count | none => 0 :=
  rfl

/-- Appending the fresh count-0 row leaves every stored count unchanged:
an absent row also reads as count 0. -/
lemma count_at_add_rl (db : DB) (t : Nat) (u : String) (d : Nat) (v : String) :
    count_at (add_rl db t u) d v = count_at db d v := by
  unfold count_at add_rl
  simp only [List.find?_append]
  cases hf : db.rate_limits.find? (fun r => r.username == v && r.date == d) with
  | some r => simp [hf]
  | none =>
    simp only [hf, Option.none_or, List.find?]
    cases hb : (u == v && t == d) <;> simp [hb]

/-- Appending the fresh count-0 row does not change the day total. -/
lemma query_usage_all_add_rl (db : DB) (t : Nat) (u : String) :
    query_usage_all (add_rl db t u) (some t) = query_usage_all db (some t) := by
  simp [query_usage_all, add_rl, List.filter_append, List.foldl_append, matches_since]

/-- Normal form of check_and_increment_limit for an existing non-admin
user: fetch-or-create, per-user check, global check, increment. -/
lemma check_nonadmin_eq (env : Option Int) (today : Nat) (uname : String)
    (db : DB) (user : User)
    (hfind : db.users.find? (fun u => u.username == uname) = some user)
    (hadmin : user.is_admin = false) :
    check_and_increment_limit env today uname db =
      (let db1 := match find_rl db today uname with
        | some _ => db
        | none => add_rl db today uname
       if effective_limit user ≤ count_at db today uname then
         (.perUserLimitExceeded, db1)
       else if get_global_limit env ≠ 0 ∧
           get_global_limit env ≤ query_usage_all db1 (some today) then
         (.globalLimitExceeded, db1)
       else (.admitted, increment_rl db1 today uname)) := by
  unfold check_and_increment_limit
  rw [hfind]
  simp only [hadmin, Bool.false_eq_true, if_false]
  rw [count_at_eq_find_rl]
  cases hf : find_rl db today uname <;> simp

/-- The per-user denial happens exactly when the stored count has reached
the effective limit. -/
lemma perUser_result_iff (env : Option Int) (today : Nat) (uname : String)
    (db : DB) (user : User)
    (hfind : db.users.find? (fun u => u.username == uname) = some user)
    (hadmin : user.is_admin = false) :
    (check_and_increment_limit env today uname db).1 = .perUserLimitExceeded ↔
      effective_limit user ≤ count_at db today uname := by
  rw [check_nonadmin_eq env today uname db user hfind hadmin]
  cases hf : find_rl db today uname <;>
    · simp only
      split
      · simp_all
      · split <;> simp_all

/-- C3: an administrator is always admitted and the store is returned
untouched: no ledger row is created or mutated. -/
theorem C3_admin_exempt (env : Option Int) (today : Nat) (uname : String)
    (db : DB) (user : User)
    (hfind : db.users.find? (fun u => u.username == uname) = some user)
    (hadmin : user.is_admin = true) :
    check_and_increment_limit env today uname db = (.admitted, db) := by
  unfold check_and_increment_limit
  rw [hfind]
  simp [hadmin]

/-- Witness for C3 at a concrete administrator account. -/
theorem C3_admin_exempt_witness :
    check_and_increment_limit none 0 "root" c3_db = (.admitted, c3_db) :=
  C3_admin_exempt none 0 "root" c3_db
    { username := "root", password_hash := "pw", is_admin := true,
      daily_limit := some 0 } (by decide) rfl

/-- C4: a non-admin user whose stored count has reached their effective
per-user limit is denied with the per-user outcome, whatever the global
configuration and the day total are. -/
theorem C4_per_user_check_first (env : Option Int) (today : Nat)
    (uname : String) (db : DB) (user : User)
    (hfind : db.users.find? (fun u => u.username == uname) = some user)
    (hadmin : user.is_admin = false)
    (hcnt : effective_limit user ≤ count_at db today uname) :
    (check_and_increment_limit env today uname db).1 = .perUserLimitExceeded :=
  (perUser_result_iff env today uname db user hfind hadmin).mpr hcnt

/-- Witness for C4: the global limit of 1 is also exceeded (day total 7),
yet the outcome is the per-user denial. -/
theorem C4_per_user_check_first_witness :
    (check_and_increment_limit (some 1) 0 "u" c4_db).1 = .perUserLimitExceeded :=
  C4_per_user_check_first (some 1) 0 "u" c4_db
    { username := "u", password_hash := "pu", is_admin := false,
      daily_limit := some 2 } (by decide) rfl (by decide)

/-- C5: for a non-admin user with unset (NULL) daily_limit the admission
check denies with the per-user outcome exactly at the fixed default of
1000 stored requests. -/
theorem C5_default_limit_1000 (env : Option Int) (today : Nat)
    (uname : String) (db : DB) (user : User)
    (hfind : db.users.find? (fun u => u.username == uname) = some user)
    (hadmin : user.is_admin = false)
    (hnone : user.daily_limit = none) :
    ((check_and_increment_limit env today uname db).1 = .perUserLimitExceeded ↔
      (1000 : Int) ≤ count_at db today uname) := by
  have h := perUser_result_iff env today uname db user hfind hadmin
  rwa [show effective_limit user = 1000 by simp [effective_limit, hnone]] at h

/-- Witness for C5: a user with NULL daily_limit and 1000 stored requests
is denied per-user. -/
theorem C5_default_limit_1000_witness :
    (check_and_increment_limit none 0 "u" c5_db).1 = .perUserLimitExceeded :=
  (C5_default_limit_1000 none 0 "u" c5_db
    { username := "u", password_hash := "pw", is_admin := false,
      daily_limit := none } (by decide) rfl rfl).mpr (by decide)

/-- The global denial: for an existing non-admin user strictly under
their per-user limit, a non-zero global limit at or below the day total
makes the check deny globally and leave every stored count unchanged. -/
lemma global_denied (env : Option Int) (today : Nat) (uname : String)
    (db : DB) (user : User)
    (hfind : db.users.find? (fun u => u.username == uname) = some user)
    (hadmin : user.is_admin = false)
    (hlt : count_at db today uname < effective_limit user)
    (hg0 : get_global_limit env ≠ 0)
    (hge : get_global_limit env ≤ query_usage_all db (some today)) :
    (check_and_increment_limit env today uname db).1 = .globalLimitExceeded ∧
    ∀ d v, count_at (check_and_increment_limit env today uname db).2 d v =
      count_at db d v := by
  rw [check_nonadmin_eq env today uname db user hfind hadmin]
  cases hf : find_rl db today uname with
  | some r =>
    simp only
    rw [if_neg (not_le.mpr hlt), if_pos ⟨hg0, hge⟩]
    exact ⟨rfl, fun d v => rfl⟩
  | none =>
    simp only
    rw [if_neg (not_le.mpr hlt), if_pos ⟨hg0, by rwa [query_usage_all_add_rl]⟩]
    exact ⟨rfl, fun d v => count_at_add_rl db today uname d v⟩

/-- Refutation of C2 as stated: with the global limit 1 set and the day
total 1 at the limit, user u (already at per-user limit 0) is denied with
the per-user outcome, not the global one. -/
theorem C2_counterexample :
    get_global_limit (some 1) ≠ 0 ∧
    get_global_limit (some 1) ≤ query_usage_all c2x_db (some 0) ∧
    (check_and_increment_limit (some 1) 0 "u" c2x_db).1 ≠ .globalLimitExceeded ∧
    (check_and_increment_limit (some 1) 0 "u" c2x_db).1 = .perUserLimitExceeded := by
  decide

/-- C2 (amended): for a non-admin user strictly under their per-user
limit, a set (non-zero) global limit at or below the day total yields the
global denial and no stored count changes; and in the concrete scenario
with global limit 1 and users a and b under their own limits, the first
call (either user) admits and any second same-day call (either user) is
denied globally. -/
theorem C2_global_limit (env : Option Int) (today : Nat) (uname : String)
    (db : DB) (user : User) :
    (db.users.find? (fun u => u.username == uname) = some user →
      user.is_admin = false →
      count_at db today uname < effective_limit user →
      get_global_limit env ≠ 0 →
      get_global_limit env ≤ query_usage_all db (some today) →
      (check_and_increment_limit env today uname db).1 = .globalLimitExceeded ∧
      ∀ d v, count_at (check_and_increment_limit env today uname db).2 d v =
        count_at db d v)
    ∧
    ((check_and_increment_limit (some 1) 0 "a" c2s_db).1 = .admitted ∧
     (check_and_increment_limit (some 1) 0 "b" c2s_db).1 = .admitted ∧
     (check_and_increment_limit (some 1) 0 "a"
        (check_and_increment_limit (some 1) 0 "a" c2s_db).2).1 = .globalLimitExceeded ∧
     (check_and_increment_limit (some 1) 0 "b"
        (check_and_increment_limit (some 1) 0 "a" c2s_db).2).1 = .globalLimitExceeded ∧
     (check_and_increment_limit (some 1) 0 "a"
        (check_and_increment_limit (some 1) 0 "b" c2s_db).2).1 = .globalLimitExceeded ∧
     (check_and_increment_limit (some 1) 0 "b"
        (check_and_increment_limit (some 1) 0 "b" c2s_db).2).1 = .globalLimitExceeded) := by
  constructor
  · exact fun hfind hadmin hlt hg0 hge =>
      global_denied env today uname db user hfind hadmin hlt hg0 hge
  · decide

/-- Witness for C2 (amended): user u under their limit of 5, day total 1
at the global limit 1, is denied globally. -/
theorem C2_global_limit_witness :
    (check_and_increment_limit (some 1) 0 "u" c2w_db).1 = .globalLimitExceeded :=
  ((C2_global_limit (some 1) 0 "u" c2w_db
    { username := "u", password_hash := "pw", is_admin := false,
      daily_limit := some 5 }).1
    (by decide) rfl (by decide) (by decide) (by decide)).1

/-- Refutation of C6 as stated: with DAILY_LIMIT absent, get_global_limit
falls back to 1000, which is not unlimited: a user far under their
per-user limit is denied globally once the day total reaches 1000. -/
theorem C6_counterexample :
    get_global_limit none = 1000 ∧ get_global_limit none ≠ 0 ∧
    (check_and_increment_limit none 0 "u" c6x_db).1 = .globalLimitExceeded := by
  decide

/-- C6 (amended): when the configured global limit value is 0 the global
denial is unreachable and get_global_limit returns 0; when the variable is
absent, get_global_limit returns the fallback 1000, which acts as a cap. -/
theorem C6_zero_means_unlimited (today : Nat) (uname : String) (db : DB) :
    (check_and_increment_limit (some 0) today uname db).1 ≠ .globalLimitExceeded ∧
    get_global_limit (some 0) = 0 ∧ get_global_limit none = 1000 := by
  refine ⟨?_, rfl, rfl⟩
  cases hfind : db.users.find? (fun u => u.username == uname) with
  | none =>
    unfold check_and_increment_limit
    rw [hfind]
    simp
  | some user =>
    cases hadm : user.is_admin with
    | true =>
      unfold check_and_increment_limit
      rw [hfind]
      simp [hadm]
    | false =>
      rw [check_nonadmin_eq (some 0) today uname db user hfind hadm]
      cases hf : find_rl db today uname <;>
        · simp only
          split
          · simp
          · rw [if_neg (by simp [get_global_limit])]
            simp

/-- C7: the per-user usage sum is the total over the rows of the user
with date at or past the since bound (restricting the ledger to those
dates first gives the same value), and it is 0 rather than an error when
the user has no rows in range, in particular for unknown usernames. -/
theorem C7_usage_zero_when_empty (db : DB) (uname : String) :
    (∀ since : Option Nat,
      (∀ r ∈ db.rate_limits,
        ¬(r.username = uname ∧ matches_since since r.date = true)) →
      query_usage db uname since = 0)
    ∧
    (∀ s : Nat, query_usage db uname (some s) =
      query_usage
        { db with rate_limits :=
            db.rate_limits.filter (fun r => decide (s ≤ r.date)) }
        uname none) := by
  constructor
  · intro since h
    have hnil : db.rate_limits.filter
        (fun r => r.username == uname && matches_since since r.date) = [] := by
      rw [List.filter_eq_nil_iff]
      intro r hr hpred
      rw [Bool.and_eq_true, beq_iff_eq] at hpred
      exact h r hr hpred
    unfold query_usage
    rw [hnil]
    rfl
  · intro s
    simp [query_usage, List.filter_filter, matches_since]

/-- Witness for C7: a username with no ledger rows sums to 0. -/
theorem C7_usage_zero_when_empty_witness : query_usage c7_db "ghost" none = 0 :=
  (C7_usage_zero_when_empty c7_db "ghost").1 none (by decide)

/-- create_or_update_user writes only the users table. -/
lemma rate_limits_create_or_update (a b : String) (l : Int) (db : DB) :
    (create_or_update_user a b l db).rate_limits = db.rate_limits := by
  unfold create_or_update_user
  split <;> rfl

/-- delete_user writes only the users table (no ORM cascade onto
rate_limits is configured). -/
lemma rate_limits_delete_user (a : String) (db : DB) :
    (delete_user a db).rate_limits = db.rate_limits := by
  unfold delete_user
  split
  · rfl
  · split <;> rfl

/-- The store left by an admission check is the input store, possibly
with the fresh count-0 row appended and possibly with today's row of the
requester incremented. -/
lemma check_db_cases (env : Option Int) (t : Nat) (u : String) (db : DB) :
    (check_and_increment_limit env t u db).2 = db ∨
    (check_and_increment_limit env t u db).2 = add_rl db t u ∨
    (check_and_increment_limit env t u db).2 = increment_rl db t u ∨
    (check_and_increment_limit env t u db).2 = increment_rl (add_rl db t u) t u := by
  cases hfind : db.users.find? (fun x => x.username == u) with
  | none =>
    left
    unfold check_and_increment_limit
    rw [hfind]
  | some user =>
    cases hadm : user.is_admin with
    | true =>
      left
      unfold check_and_increment_limit
      rw [hfind]
      simp [hadm]
    | false =>
      rw [check_nonadmin_eq env t u db user hfind hadm]
      cases hf : find_rl db t u with
      | some r0 =>
        simp only
        by_cases h1 : effective_limit user ≤ count_at db t u
        · rw [if_pos h1]
          exact Or.inl rfl
        · rw [if_neg h1]
          by_cases h2 : get_global_limit env ≠ 0 ∧
              get_global_limit env ≤ query_usage_all db (some t)
          · rw [if_pos h2]
            exact Or.inl rfl
          · rw [if_neg h2]
            exact Or.inr (Or.inr (Or.inl rfl))
      | none =>
        simp only
        by_cases h1 : effective_limit user ≤ count_at db t u
        · rw [if_pos h1]
          exact Or.inr (Or.inl rfl)
        · rw [if_neg h1]
          by_cases h2 : get_global_limit env ≠ 0 ∧
              get_global_limit env ≤ query_usage_all (add_rl db t u) (some t)
          · rw [if_pos h2]
            exact Or.inr (Or.inl rfl)
          · rw [if_neg h2]
            exact Or.inr (Or.inr (Or.inr rfl))

/-- Appending the fresh row keeps every existing row. -/
lemma row_mono_add_rl (db : DB) (t : Nat) (u : String) (r : RateLimit)
    (h : r ∈ db.rate_limits) : r ∈ (add_rl db t u).rate_limits :=
  List.mem_append_left _ h

/-- The increment maps every existing row to a row with the same key and
a count that did not decrease. -/
lemma row_mono_increment (db : DB) (t : Nat) (u : String) (r : RateLimit)
    (h : r ∈ db.rate_limits) :
    ∃ r2 ∈ (increment_rl db t u).rate_limits,
      r2.username = r.username ∧ r2.date = r.date ∧ r.count ≤ r2.count := by
  refine ⟨_, List.mem_map_of_mem
    (fun x => if x.username == u && x.date == t then
      { x with count := x.count + 1 } else x) h, ?_⟩
  by_cases hc : (r.username == u && r.date == t) = true
  · rw [if_pos hc]
    exact ⟨rfl, rfl, Int.le_add_one (le_refl _)⟩
  · rw [if_neg hc]
    exact ⟨rfl, rfl, le_refl _⟩

/-- C8: across every core operation, an existing ledger row either
survives with a key-equal row whose count did not decrease, or the
operation was the bulk reset, which deletes all rows; no operation ever
decrements a count. -/
theorem C8_counts_never_decrease (op : AdminOp) (db : DB) (r : RateLimit)
    (h : r ∈ db.rate_limits) :
    (op = .clearDb ∧ (apply_op op db).rate_limits = []) ∨
    ∃ r2 ∈ (apply_op op db).rate_limits,
      r2.username = r.username ∧ r2.date = r.date ∧ r.count ≤ r2.count := by
  cases op with
  | admitReq env t u =>
    right
    simp only [apply_op]
    rcases check_db_cases env t u db with hdb | hdb | hdb | hdb <;> rw [hdb]
    · exact ⟨r, h, rfl, rfl, le_refl _⟩
    · exact ⟨r, row_mono_add_rl db t u r h, rfl, rfl, le_refl _⟩
    · exact row_mono_increment db t u r h
    · exact row_mono_increment (add_rl db t u) t u r (row_mono_add_rl db t u r h)
  | createOrUpdateUser a b l =>
    right
    refine ⟨r, ?_, rfl, rfl, le_refl _⟩
    simp only [apply_op]
    rw [rate_limits_create_or_update]
    exact h
  | deleteUser a =>
    right
    refine ⟨r, ?_, rfl, rfl, le_refl _⟩
    simp only [apply_op]
    rw [rate_limits_delete_user]
    exact h
  | updateConfig l =>
    right
    exact ⟨r, h, rfl, rfl, le_refl _⟩
  | usageReport =>
    right
    exact ⟨r, h, rfl, rfl, le_refl _⟩
  | clearDb =>
    left
    exact ⟨rfl, rfl⟩

/-- Witness for C8 at a concrete admission check over a one-row ledger. -/
theorem C8_counts_never_decrease_witness :
    (AdminOp.admitReq (some 0) 0 "u" = .clearDb ∧
      (apply_op (.admitReq (some 0) 0 "u") c8_db).rate_limits = []) ∨
    ∃ r2 ∈ (apply_op (.admitReq (some 0) 0 "u") c8_db).rate_limits,
      r2.username = c8_row.username ∧ r2.date = c8_row.date ∧
      c8_row.count ≤ r2.count :=
  C8_counts_never_decrease (.admitReq (some 0) 0 "u") c8_db c8_row (by decide)

/-- C9: after clear_database the ledger is empty and every per-user and
all-user usage sum is 0, for every username and every since bound
(in particular the day and total fields of the usage report are 0). -/
theorem C9_reset_reports_zero (db : DB) (uname : String) (since : Option Nat) :
    (clear_database db).rate_limits = [] ∧
    query_usage (clear_database db) uname since = 0 ∧
    query_usage_all (clear_database db) since = 0 :=
  ⟨rfl, rfl, rfl⟩

/-- C10: clear_database empties all four tables, so no Message, Session,
RateLimit or User row (administrators included) survives it. -/
theorem C10_clear_wipes_all_tables (db : DB) :
    (clear_database db).messages = [] ∧ (clear_database db).sessions = [] ∧
    (clear_database db).rate_limits = [] ∧ (clear_database db).users = [] :=
  ⟨rfl, rfl, rfl, rfl⟩

end SynapseChat
